import Mathlib

/-!
Shallow embedding of the aiogram test framework (request-capture double and
event-synthesis layer): the capture store (`request_capture.py`), the substitute
transport (`mock_bot.py`), the entity builders (`factories.py`) and the session
facade (`client.py`), together with theorems checking the specification's claims
against these definitions.

Python `datetime` values are modelled as integers (an abstract tick supplied by
the caller, standing for `datetime.now()`), and `random.randint(lo, hi)` is
modelled as a function of an external random source `r : Nat`, faithful to its
contract of returning a value in `[lo, hi]`.
-/

namespace ATF

/-- A value stored in a call's parameter mapping (embedding of the Python dict
values the framework actually reads: ints, strings, booleans). -/
inductive PValue where
  | int (n : Int)
  | str (s : String)
  | bool (b : Bool)
  deriving DecidableEq, Repr

/-- A parameter mapping (`params` dict of a captured call), keys unique. -/
abbrev Params := List (String × PValue)

/-- Embedding of `dict.get(key)`: first binding of the key, if any. -/
def Params.get (p : Params) (k : String) : Option PValue :=
  match p with
  | [] => none
  | (k2, v) :: rest => if k2 = k then some v else Params.get rest k

/-- Embedding of `params.get(key, default)` for an integer-valued parameter. -/
def Params.getInt (p : Params) (k : String) (d : Int) : Int :=
  match Params.get p k with
  | some (PValue.int n) => n
  | _ => d

/-- Embedding of `params.get(key, default)` for a string-valued parameter. -/
def Params.getStr (p : Params) (k : String) (d : String) : String :=
  match Params.get p k with
  | some (PValue.str s) => s
  | _ => d

/-- Embedding of `aiogram.types.User` (the fields this framework reads/writes). -/
structure User where
  id : Int
  is_bot : Bool
  first_name : String
  last_name : Option String
  username : Option String
  language_code : Option String
  is_premium : Bool
  deriving DecidableEq, Repr

/-- Embedding of `aiogram.types.Chat` (the fields this framework reads/writes). -/
structure Chat where
  id : Int
  type : String
  title : Option String
  first_name : Option String
  last_name : Option String
  username : Option String
  deriving DecidableEq, Repr

/-- Embedding of `aiogram.types.Dice`. -/
structure Dice where
  emoji : String
  value : Int
  deriving DecidableEq, Repr

/-- Embedding of `aiogram.types.PhotoSize`. -/
structure PhotoSize where
  file_id : String
  file_unique_id : String
  width : Int
  height : Int
  deriving DecidableEq, Repr

/-- Embedding of `aiogram.types.MessageEntity` (passed through untouched). -/
structure MessageEntity where
  type : String
  offset : Int
  length : Int
  deriving DecidableEq, Repr

/-- Embedding of `aiogram.types.InlineKeyboardButton`. -/
structure InlineKeyboardButton where
  text : String
  callback_data : String
  deriving DecidableEq, Repr

/-- Embedding of `aiogram.types.InlineKeyboardMarkup`. -/
structure InlineKeyboardMarkup where
  inline_keyboard : List (List InlineKeyboardButton)
  deriving DecidableEq, Repr

/-- Embedding of `aiogram.types.MessageOrigin` and its four variants
(`MessageOriginUser`, `MessageOriginHiddenUser`, `MessageOriginChat`,
`MessageOriginChannel`), as exercised by the repository's forwarded-message
tests. -/
inductive MessageOrigin where
  | user (sender_user : User)
  | hiddenUser (sender_user_name : String)
  | chat (sender_chat : Chat) (author_signature : Option String)
  | channel (chat : Chat) (message_id : Int) (author_signature : Option String)
  deriving DecidableEq, Repr

/-- Embedding of `aiogram.types.Message` (the fields this framework
reads/writes). `reply_to_message` is recursive, hence an inductive type. -/
inductive Message where
  | mk (message_id : Int) (date : Int) (chat : Chat) (from_user : Option User)
      (text : Option String) (reply_to_message : Option Message)
      (reply_markup : Option InlineKeyboardMarkup)
      (entities : Option (List MessageEntity))
      (dice : Option Dice) (photo : Option (List PhotoSize))
      (caption : Option String) (forward_origin : Option MessageOrigin)

def Message.message_id : Message → Int
  | .mk i _ _ _ _ _ _ _ _ _ _ _ => i

def Message.date : Message → Int
  | .mk _ d _ _ _ _ _ _ _ _ _ _ => d

def Message.chat : Message → Chat
  | .mk _ _ c _ _ _ _ _ _ _ _ _ => c

def Message.from_user : Message → Option User
  | .mk _ _ _ u _ _ _ _ _ _ _ _ => u

def Message.text : Message → Option String
  | .mk _ _ _ _ t _ _ _ _ _ _ _ => t

def Message.dice : Message → Option Dice
  | .mk _ _ _ _ _ _ _ _ d _ _ _ => d

def Message.forward_origin : Message → Option MessageOrigin
  | .mk _ _ _ _ _ _ _ _ _ _ _ fo => fo

/-- Replace a message's `forward_origin` field, keeping everything else. -/
def Message.withForwardOrigin : Message → Option MessageOrigin → Message
  | .mk a b c d e f g h i j k _, fo => .mk a b c d e f g h i j k fo

/-- Embedding of the `RequestType` enum from `types.py` (closed call-kind enum). -/
inductive RequestType where
  | sendMessage | editMessageText | editMessageReplyMarkup | deleteMessage
  | forwardMessage | copyMessage
  | sendPhoto | sendVideo | sendAudio | sendDocument | sendSticker
  | sendAnimation | sendVoice | sendVideoNote | sendMediaGroup
  | sendDice | sendLocation | sendContact | sendPoll
  | sendChatAction
  | answerCallbackQuery | answerInlineQuery
  | getChat | getChatMember | banChatMember | unbanChatMember | restrictChatMember
  | getMe | getMyCommands | setMyCommands
  | other
  deriving DecidableEq, Repr

/-- The string value of each `RequestType` enum member, in the order of
`types.py` (the enum is a `str`-valued enum, so `RequestType(name)` succeeds
exactly when `name` is one of these values). -/
def requestTypeAssoc : List (String × RequestType) :=
  [("sendMessage", .sendMessage), ("editMessageText", .editMessageText),
   ("editMessageReplyMarkup", .editMessageReplyMarkup), ("deleteMessage", .deleteMessage),
   ("forwardMessage", .forwardMessage), ("copyMessage", .copyMessage),
   ("sendPhoto", .sendPhoto), ("sendVideo", .sendVideo), ("sendAudio", .sendAudio),
   ("sendDocument", .sendDocument), ("sendSticker", .sendSticker),
   ("sendAnimation", .sendAnimation), ("sendVoice", .sendVoice),
   ("sendVideoNote", .sendVideoNote), ("sendMediaGroup", .sendMediaGroup),
   ("sendDice", .sendDice), ("sendLocation", .sendLocation),
   ("sendContact", .sendContact), ("sendPoll", .sendPoll),
   ("sendChatAction", .sendChatAction),
   ("answerCallbackQuery", .answerCallbackQuery), ("answerInlineQuery", .answerInlineQuery),
   ("getChat", .getChat), ("getChatMember", .getChatMember),
   ("banChatMember", .banChatMember), ("unbanChatMember", .unbanChatMember),
   ("restrictChatMember", .restrictChatMember),
   ("getMe", .getMe), ("getMyCommands", .getMyCommands), ("setMyCommands", .setMyCommands),
   ("other", .other)]

/-- The string values of the closed call-kind enum. -/
def enumMethodNames : List String := requestTypeAssoc.map Prod.fst

/-- Embedding of `MockSession._method_to_request_type`: `RequestType(method_name)`
with the `ValueError` fallback mapping unrecognized names to `OTHER`. -/
def methodToRequestType (method_name : String) : RequestType :=
  match requestTypeAssoc.find? (fun p => p.1 = method_name) with
  | some p => p.2
  | none => RequestType.other

/-- The synthesized response values the substitute transport produces
(`MockSession._generate_response` returns one of these shapes). -/
inductive MockResponse where
  | user (u : User)
  | message (m : Message)
  | chatMember (user : User)
  | chat (c : Chat)
  | bool (b : Bool)

/-- Embedding of the `CapturedRequest` dataclass from `types.py`. -/
structure CapturedRequest where
  request_type : RequestType
  params : Params
  timestamp : Int
  response : MockResponse

/-- Embedding of `CapturedRequest.chat_id`: `params.get("chat_id")`. -/
def CapturedRequest.chat_id (r : CapturedRequest) : Option PValue :=
  Params.get r.params "chat_id"

/-- Embedding of `CapturedRequest.text`: `params.get("text")`. -/
def CapturedRequest.text (r : CapturedRequest) : Option PValue :=
  Params.get r.params "text"

/-- The dice value carried by a captured call's synthesized response, if the
response is a message with a dice payload. -/
def CapturedRequest.diceValue (r : CapturedRequest) : Option Int :=
  match r.response with
  | .message m =>
    match m.dice with
    | some d => some d.value
    | none => none
  | _ => none

/-- Embedding of the `RequestCapture` store from `request_capture.py`. -/
structure RequestCapture where
  requests : List CapturedRequest

/-- Embedding of `RequestCapture.add`: append one captured call. -/
def RequestCapture.add (c : RequestCapture) (r : CapturedRequest) : RequestCapture :=
  ⟨c.requests ++ [r]⟩

/-- Embedding of `RequestCapture.clear`. -/
def RequestCapture.clear (_ : RequestCapture) : RequestCapture :=
  ⟨[]⟩

/-- Embedding of the `RequestCapture.all_requests` property (snapshot copy of
the log, insertion order preserved). -/
def RequestCapture.allRequests (c : RequestCapture) : List CapturedRequest :=
  c.requests

/-- Embedding of `len(capture)`. -/
def RequestCapture.size (c : RequestCapture) : Nat :=
  c.requests.length

/-- Embedding of `RequestCapture.get_by_type`. -/
def RequestCapture.getByType (c : RequestCapture) (t : RequestType) : List CapturedRequest :=
  c.requests.filter (fun r => decide (r.request_type = t))

/-- The optional-conversation filter shared by the query accessors: with a
`chat_id` argument, keep the calls whose `chat_id` parameter equals it. -/
def filterByChat (l : List CapturedRequest) (chat_id : Option Int) : List CapturedRequest :=
  match chat_id with
  | none => l
  | some cid => l.filter (fun m => decide (m.chat_id = some (PValue.int cid)))

/-- Embedding of `RequestCapture.get_sent_messages`. -/
def RequestCapture.getSentMessages (c : RequestCapture) (chat_id : Option Int) :
    List CapturedRequest :=
  filterByChat (c.getByType RequestType.sendMessage) chat_id

/-- Embedding of `RequestCapture.get_edited_messages`. -/
def RequestCapture.getEditedMessages (c : RequestCapture) (chat_id : Option Int) :
    List CapturedRequest :=
  filterByChat (c.getByType RequestType.editMessageText) chat_id

/-- Embedding of `RequestCapture.get_deleted_messages`. -/
def RequestCapture.getDeletedMessages (c : RequestCapture) (chat_id : Option Int) :
    List CapturedRequest :=
  filterByChat (c.getByType RequestType.deleteMessage) chat_id

/-- Embedding of `RequestCapture.get_callback_answers`. -/
def RequestCapture.getCallbackAnswers (c : RequestCapture) : List CapturedRequest :=
  c.getByType RequestType.answerCallbackQuery

/-- Embedding of `RequestCapture.get_dice_sends`. -/
def RequestCapture.getDiceSends (c : RequestCapture) (chat_id : Option Int) :
    List CapturedRequest :=
  filterByChat (c.getByType RequestType.sendDice) chat_id

/-- Embedding of `RequestCapture.get_last_message`:
`messages[-1] if messages else None`. -/
def RequestCapture.getLastMessage (c : RequestCapture) (chat_id : Option Int) :
    Option CapturedRequest :=
  let messages := c.getSentMessages chat_id
  if messages.isEmpty then none else messages.getLast?

/-- Embedding of `RequestCapture.get_last_request`. -/
def RequestCapture.getLastRequest (c : RequestCapture) : Option CapturedRequest :=
  if c.requests.isEmpty then none else c.requests.getLast?

/-- Truthy-string-and-substring test of `has_message_containing`'s loop body:
`if message.text and text in message.text`. -/
def textContains (msgText : Option PValue) (text : String) : Bool :=
  match msgText with
  | some (PValue.str s) => ¬ s = "" ∧ text.toList.IsInfix s.toList
  | _ => false

/-- Embedding of `RequestCapture.has_message_containing` (the early-returning
`for` loop over the filtered sent messages). -/
def RequestCapture.hasMessageContaining (c : RequestCapture) (text : String)
    (chat_id : Option Int) : Bool :=
  (c.getSentMessages chat_id).any (fun m => textContains m.text text)

/-- Embedding of `RequestCapture.count_by_type`. -/
def RequestCapture.countByType (c : RequestCapture) (t : RequestType) : Nat :=
  (c.getByType t).length

/-- Model of Python `random.randint lo hi`: an external random source `r` is
reduced into the inclusive range `[lo, hi]`. -/
def randint (lo hi : Int) (r : Nat) : Int :=
  lo + (r : Int) % (hi - lo + 1)

/-- The mutable state of `MockSession` from `mock_bot.py`: the response
message-id counter (starting at 1) and the FIFO queue of pre-set dice values. -/
structure MockSessionState where
  message_id_counter : Int
  next_dice_values : List Int
  deriving DecidableEq, Repr

/-- A fresh `MockSession` state, as built by `MockSession.__init__`. -/
def MockSessionState.fresh : MockSessionState :=
  { message_id_counter := 1, next_dice_values := [] }

/-- Embedding of `MockSession._get_next_message_id`. -/
def MockSession.getNextMessageId (st : MockSessionState) : Int × MockSessionState :=
  (st.message_id_counter, { st with message_id_counter := st.message_id_counter + 1 })

/-- Embedding of `MockSession.set_next_dice_value`: enqueue one value at the
back of the FIFO. -/
def MockSession.setNextDiceValue (st : MockSessionState) (v : Int) : MockSessionState :=
  { st with next_dice_values := st.next_dice_values ++ [v] }

/-- Enqueue a whole list of values by repeated `set_next_dice_value` calls. -/
def MockSession.enqueueAll (st : MockSessionState) (vs : List Int) : MockSessionState :=
  vs.foldl MockSession.setNextDiceValue st

/-- Embedding of `MockSession._get_next_dice_value`: pop the head of the FIFO
if non-empty, else draw a random value from the emoji's range. -/
def MockSession.getNextDiceValue (st : MockSessionState) (emoji : String) (r : Nat) :
    Int × MockSessionState :=
  match st.next_dice_values with
  | v :: rest => (v, { st with next_dice_values := rest })
  | [] =>
    if emoji = "🏀" ∨ emoji = "⚽" then (randint 1 5 r, st)
    else if emoji = "🎰" then (randint 1 64 r, st)
    else (randint 1 6 r, st)

/-- The emoji-keyed default dice range of `MockSession._get_next_dice_value`
(and of `MessageFactory._get_dice_value_range`, which uses the same table). -/
def defaultDiceRange (emoji : String) : Int × Int :=
  if emoji = "🏀" ∨ emoji = "⚽" then (1, 5)
  else if emoji = "🎰" then (1, 64)
  else (1, 6)

/-- Embedding of `MockSession._generate_response`: one synthesis rule per
call kind, with a boolean-success fallback. `now` stands for `datetime.now()`
and `r` for the random source of `_get_next_dice_value`. -/
def MockSession.generateResponse (bot_user : User) (method_name : String)
    (params : Params) (st : MockSessionState) (r : Nat) (now : Int) :
    MockResponse × MockSessionState :=
  if method_name = "getMe" then
    (.user bot_user, st)
  else if method_name = "sendMessage" ∨ method_name = "editMessageText" then
    let chat_id := params.getInt "chat_id" 0
    let p := MockSession.getNextMessageId st
    (.message (Message.mk p.1 now ⟨chat_id, "private", none, none, none, none⟩
        (some bot_user) (some (params.getStr "text" "")) none none none none none none none),
     p.2)
  else if method_name = "deleteMessage" then
    (.bool true, st)
  else if method_name = "answerCallbackQuery" then
    (.bool true, st)
  else if method_name = "sendDice" then
    let chat_id := params.getInt "chat_id" 0
    let emoji := params.getStr "emoji" "🎲"
    let p := MockSession.getNextMessageId st
    let q := MockSession.getNextDiceValue p.2 emoji r
    (.message (Message.mk p.1 now ⟨chat_id, "private", none, none, none, none⟩
        (some bot_user) none none none none (some ⟨emoji, q.1⟩) none none none),
     q.2)
  else if method_name = "sendPhoto" then
    let chat_id := params.getInt "chat_id" 0
    let p := MockSession.getNextMessageId st
    (.message (Message.mk p.1 now ⟨chat_id, "private", none, none, none, none⟩
        (some bot_user) none none none none none (some [⟨"test", "test", 100, 100⟩])
        (match params.get "caption" with
         | some (PValue.str s) => some s
         | _ => none) none),
     p.2)
  else if method_name = "getChatMember" then
    (.chatMember ⟨params.getInt "user_id" 1, false, "TestUser", none, none, none, false⟩, st)
  else if method_name = "getChat" then
    (.chat ⟨params.getInt "chat_id" 0, "private", none, none, none, none⟩, st)
  else
    (.bool true, st)

/-- Embedding of `MockSession.make_request`: classify the method name,
synthesize a response, append the captured call to the store, return the
response. -/
def MockSession.makeRequest (bot_user : User) (method_name : String)
    (params : Params) (st : MockSessionState) (cap : RequestCapture)
    (r : Nat) (now : Int) :
    MockResponse × MockSessionState × RequestCapture :=
  let request_type := methodToRequestType method_name
  let p := MockSession.generateResponse bot_user method_name params st r now
  (p.1, p.2, cap.add ⟨request_type, params, now, p.1⟩)

/-- Run a sequence of `sendDice` interceptions through `make_request`, one per
random-source entry, threading the session state and the capture store. -/
def runDiceSends (bot_user : User) (params : Params) (now : Int) :
    List Nat → MockSessionState × RequestCapture → MockSessionState × RequestCapture
  | [], sc => sc
  | r :: rs, sc =>
    let p := MockSession.makeRequest bot_user "sendDice" params sc.1 sc.2 r now
    runDiceSends bot_user params now rs (p.2.1, p.2.2)

/-- The four class-level identifier counters of `factories.py`:
`UserFactory._user_id_counter`, `MessageFactory._message_id_counter`,
`CallbackQueryFactory._callback_id_counter`, `UpdateFactory._update_id_counter`. -/
structure FactoryState where
  user_id_counter : Int
  message_id_counter : Int
  callback_id_counter : Int
  update_id_counter : Int
  deriving DecidableEq, Repr

/-- The class-attribute initial values of the four counters (the sequencer
bases: identity 100000, message/action/envelope 1). -/
def FactoryState.base : FactoryState :=
  { user_id_counter := 100000, message_id_counter := 1,
    callback_id_counter := 1, update_id_counter := 1 }

/-- Embedding of `UserFactory.create`. -/
def UserFactory.create (st : FactoryState) (user_id : Option Int)
    (first_name : String) (last_name : Option String) (username : Option String)
    (language_code : String) (is_bot : Bool) (is_premium : Bool) :
    User × FactoryState :=
  let p : Int × FactoryState :=
    match user_id with
    | some u => (u, st)
    | none => (st.user_id_counter, { st with user_id_counter := st.user_id_counter + 1 })
  let uname : String :=
    match username with
    | some s => s
    | none => "test_user_" ++ toString p.1
  ({ id := p.1, is_bot := is_bot, first_name := first_name, last_name := last_name,
     username := some uname, language_code := some language_code,
     is_premium := is_premium }, p.2)

/-- Embedding of `UserFactory.reset_counter`. -/
def UserFactory.resetCounter (st : FactoryState) : FactoryState :=
  { st with user_id_counter := 100000 }

/-- The auto-generated-id step of `UserFactory.create` (its `user_id is None`
branch): return the counter and increment it. -/
def UserFactory.nextId (st : FactoryState) : Int × FactoryState :=
  (st.user_id_counter, { st with user_id_counter := st.user_id_counter + 1 })

/-- Python string truthiness of `username or default` in
`ChatFactory.create_private`: `None` and the empty string both fall back. -/
def orNonEmpty (username : Option String) (d : String) : String :=
  match username with
  | some s => if s = "" then d else s
  | none => d

/-- Embedding of `ChatFactory.create_private`. -/
def ChatFactory.createPrivate (chat_id : Int) (first_name : String)
    (last_name : Option String) (username : Option String) : Chat :=
  { id := chat_id, type := "private", title := none,
    first_name := some first_name, last_name := last_name,
    username := some (orNonEmpty username ("test_user_" ++ toString chat_id)) }

/-- Embedding of `ChatFactory.create_private_from_user`. -/
def ChatFactory.createPrivateFromUser (user : User) : Chat :=
  ChatFactory.createPrivate user.id user.first_name user.last_name user.username

/-- Embedding of `ChatFactory.create_group`. -/
def ChatFactory.createGroup (chat_id : Int) (title : String) : Chat :=
  { id := chat_id, type := "group", title := some title,
    first_name := none, last_name := none, username := none }

/-- Embedding of `MessageFactory.create` (`now` stands for `datetime.now()`). -/
def MessageFactory.create (st : FactoryState) (text : String) (from_user : User)
    (chat : Option Chat) (message_id : Option Int) (date : Option Int)
    (reply_to_message : Option Message) (reply_markup : Option InlineKeyboardMarkup)
    (entities : Option (List MessageEntity)) (now : Int) :
    Message × FactoryState :=
  let p : Int × FactoryState :=
    match message_id with
    | some m => (m, st)
    | none => (st.message_id_counter, { st with message_id_counter := st.message_id_counter + 1 })
  let ch : Chat :=
    match chat with
    | some c => c
    | none => ChatFactory.createPrivate from_user.id from_user.first_name
        from_user.last_name from_user.username
  let d : Int :=
    match date with
    | some d0 => d0
    | none => now
  (Message.mk p.1 d ch (some from_user) (some text) reply_to_message reply_markup
     entities none none none none, p.2)

/-- Embedding of `MessageFactory.create_command`: format `/<command>[ <args>]`
and delegate to `create`. Python truthiness: `None` and `""` args are dropped. -/
def MessageFactory.createCommand (st : FactoryState) (command : String)
    (from_user : User) (args : Option String) (chat : Option Chat)
    (message_id : Option Int) (now : Int) : Message × FactoryState :=
  let text :=
    match args with
    | some a => if a = "" then "/" ++ command else "/" ++ command ++ " " ++ a
    | none => "/" ++ command
  MessageFactory.create st text from_user chat message_id none none none none now

/-- Embedding of `MessageFactory.reset_counter`. -/
def MessageFactory.resetCounter (st : FactoryState) : FactoryState :=
  { st with message_id_counter := 1 }

/-- The auto-generated-id step of `MessageFactory.create` (its
`message_id is None` branch). -/
def MessageFactory.nextId (st : FactoryState) : Int × FactoryState :=
  (st.message_id_counter, { st with message_id_counter := st.message_id_counter + 1 })

/-- Embedding of `MessageFactory._get_dice_value_range`. -/
def MessageFactory.getDiceValueRange (emoji : String) : Int × Int :=
  if emoji = "🏀" ∨ emoji = "⚽" then (1, 5)
  else if emoji = "🎰" then (1, 64)
  else (1, 6)

/-- Embedding of `MessageFactory._get_random_dice_value`. -/
def MessageFactory.getRandomDiceValue (emoji : String) (r : Nat) : Int :=
  randint (MessageFactory.getDiceValueRange emoji).1 (MessageFactory.getDiceValueRange emoji).2 r

/-- Embedding of `MessageFactory._validate_dice_value`: `ValueError` when the
value is outside the emoji's range. -/
def MessageFactory.validateDiceValue (value : Int) (emoji : String) :
    Except String Unit :=
  if (MessageFactory.getDiceValueRange emoji).1 ≤ value ∧
      value ≤ (MessageFactory.getDiceValueRange emoji).2 then
    Except.ok ()
  else
    Except.error "Dice value is out of range for emoji."

/-- Embedding of `MessageFactory.create_dice`. The message-id counter is
consumed before validation (as in the source), so the state component reflects
the increment even on the error path. -/
def MessageFactory.createDice (st : FactoryState) (from_user : User)
    (value : Option Int) (emoji : String) (chat : Option Chat)
    (message_id : Option Int) (date : Option Int) (r : Nat) (now : Int) :
    Except String Message × FactoryState :=
  let p : Int × FactoryState :=
    match message_id with
    | some m => (m, st)
    | none => (st.message_id_counter, { st with message_id_counter := st.message_id_counter + 1 })
  let ch : Chat :=
    match chat with
    | some c => c
    | none => ChatFactory.createPrivate from_user.id from_user.first_name
        from_user.last_name from_user.username
  let d : Int :=
    match date with
    | some d0 => d0
    | none => now
  match value with
  | none =>
    (Except.ok (Message.mk p.1 d ch (some from_user) none none none none
       (some ⟨emoji, MessageFactory.getRandomDiceValue emoji r⟩) none none none), p.2)
  | some v =>
    match MessageFactory.validateDiceValue v emoji with
    | Except.error e => (Except.error e, p.2)
    | Except.ok _ =>
      (Except.ok (Message.mk p.1 d ch (some from_user) none none none none
         (some ⟨emoji, v⟩) none none none), p.2)

/-- Whether an `Except` result is the error case. -/
def isErr (e : Except String Message) : Bool :=
  match e with
  | Except.error _ => true
  | Except.ok _ => false

/-- Embedding of `CallbackQueryFactory.reset_counter`. -/
def CallbackQueryFactory.resetCounter (st : FactoryState) : FactoryState :=
  { st with callback_id_counter := 1 }

/-- The auto-generated-id step of `CallbackQueryFactory.create` (its
`callback_id is None` branch; the id it stamps is `str` of this counter). -/
def CallbackQueryFactory.nextId (st : FactoryState) : Int × FactoryState :=
  (st.callback_id_counter, { st with callback_id_counter := st.callback_id_counter + 1 })

/-- Embedding of `UpdateFactory.reset_counter`. -/
def UpdateFactory.resetCounter (st : FactoryState) : FactoryState :=
  { st with update_id_counter := 1 }

/-- The auto-generated-id step of `UpdateFactory.create_message_update` /
`create_callback_update` (their `update_id is None` branch). -/
def UpdateFactory.nextId (st : FactoryState) : Int × FactoryState :=
  (st.update_id_counter, { st with update_id_counter := st.update_id_counter + 1 })

/-- Modelled from the spec: the by-user forward-variant message builder
(spec §4.2); it is exercised by the repository's tests
(`client.send_forwarded_from_user`) but its implementation is not present
under `src/`. It builds a message via the message builder and stamps the
message's origin metadata with the by-user variant carrying the original
sender identity. -/
def MessageFactory.createForwardedFromUser (st : FactoryState) (text : String)
    (from_user : User) (forward_from : User) (chat : Option Chat) (now : Int) :
    Message × FactoryState :=
  let p := MessageFactory.create st text from_user chat none none none none none now
  (p.1.withForwardOrigin (some (MessageOrigin.user forward_from)), p.2)

/-- Modelled from the spec: the by-hidden-user forward-variant message builder
(spec §4.2); exercised by `client.send_forwarded_from_hidden_user` in the
repository's tests but not present under `src/`. It stamps the message's origin
metadata with the by-hidden-user variant carrying the display name string. -/
def MessageFactory.createForwardedFromHiddenUser (st : FactoryState)
    (text : String) (from_user : User) (sender_user_name : String)
    (chat : Option Chat) (now : Int) : Message × FactoryState :=
  let p := MessageFactory.create st text from_user chat none none none none none now
  (p.1.withForwardOrigin (some (MessageOrigin.hiddenUser sender_user_name)), p.2)

/-- Modelled from the spec: the by-chat forward-variant message builder
(spec §4.2); exercised by `client.send_forwarded_from_chat` in the repository's
tests but not present under `src/`. It stamps the message's origin metadata
with the by-chat variant carrying the originating chat and the optional author
signature. -/
def MessageFactory.createForwardedFromChat (st : FactoryState) (text : String)
    (from_user : User) (sender_chat : Chat) (author_signature : Option String)
    (chat : Option Chat) (now : Int) : Message × FactoryState :=
  let p := MessageFactory.create st text from_user chat none none none none none now
  (p.1.withForwardOrigin (some (MessageOrigin.chat sender_chat author_signature)), p.2)

/-- Modelled from the spec: the by-channel forward-variant message builder
(spec §4.2); exercised by `client.send_forwarded_from_channel` in the
repository's tests but not present under `src/`. It stamps the message's
origin metadata with the by-channel variant carrying the channel chat, the
channel message id and the optional author signature. -/
def MessageFactory.createForwardedFromChannel (st : FactoryState) (text : String)
    (from_user : User) (channel_chat : Chat) (channel_message_id : Int)
    (author_signature : Option String) (chat : Option Chat) (now : Int) :
    Message × FactoryState :=
  let p := MessageFactory.create st text from_user chat none none none none none now
  (p.1.withForwardOrigin
     (some (MessageOrigin.channel channel_chat channel_message_id author_signature)), p.2)

/-- The state owned by the `TestClient` session facade that its `reset` method
touches or must preserve: the capture store, the `MockSession` transport state
and the factory counters. The dispatch engine itself is an external
collaborator and carries no state relevant to the claims. -/
structure TestClientState where
  capture : RequestCapture
  session : MockSessionState
  factories : FactoryState

/-- Embedding of `TestClient.send_message` / `send_command` / `send_callback`
around the external dispatch engine: record the capture-store length, let the
engine deliver the envelope (during which the application appends `during`
calls to the store, one `RequestCapture.add` per outbound call), and return
the tail slice `all_requests[initial_count:]`. The built envelope itself does
not touch the capture store, so the three wrappers share this one model. -/
def TestClient.deliver (cap : RequestCapture) (during : List CapturedRequest) :
    List CapturedRequest × RequestCapture :=
  let initial_count := cap.size
  let capAfter := during.foldl RequestCapture.add cap
  ((capAfter.allRequests).drop initial_count, capAfter)

/-- Embedding of `TestClient.reset`: clear the capture store, reset the
transport's response message-id counter and reset the four factory counters.
The transport's pre-set dice-value FIFO is not touched. -/
def TestClient.reset (s : TestClientState) : TestClientState :=
  { capture := s.capture.clear,
    session := { s.session with message_id_counter := 1 },
    factories :=
      UpdateFactory.resetCounter (CallbackQueryFactory.resetCounter
        (MessageFactory.resetCounter (UserFactory.resetCounter s.factories))) }

/-! ## Helper lemmas -/

theorem foldl_add_requests (during : List CapturedRequest) :
    ∀ cap : RequestCapture,
      (during.foldl RequestCapture.add cap).requests = cap.requests ++ during := by
  induction during with
  | nil => intro cap; simp
  | cons d ds ih =>
    intro cap
    simp [List.foldl_cons, ih, RequestCapture.add]

theorem withForwardOrigin_forward_origin (m : Message) (fo : Option MessageOrigin) :
    (m.withForwardOrigin fo).forward_origin = fo := by
  cases m
  rfl

theorem withForwardOrigin_text (m : Message) (fo : Option MessageOrigin) :
    (m.withForwardOrigin fo).text = m.text := by
  cases m
  rfl

theorem withForwardOrigin_from_user (m : Message) (fo : Option MessageOrigin) :
    (m.withForwardOrigin fo).from_user = m.from_user := by
  cases m
  rfl

/-! ## Claim theorems -/

/-- C1: for every delivery operation (`TestClient.send_message` /
`send_command` / `send_callback`), the returned list is exactly the calls the
application appended to the capture store during that single delivery, in
order, and the post-delivery log is the pre-delivery log followed by exactly
that returned slice — so the slice is positionally disjoint from every call
captured before the delivery was invoked. -/
theorem claim_c1_deliver_returns_new_calls (cap : RequestCapture)
    (during : List CapturedRequest) :
    (TestClient.deliver cap during).1 = during ∧
    ((TestClient.deliver cap during).2).requests =
      cap.requests ++ (TestClient.deliver cap during).1 := by
  have h : (during.foldl RequestCapture.add cap).requests = cap.requests ++ during :=
    foldl_add_requests during cap
  constructor
  · show ((during.foldl RequestCapture.add cap).allRequests).drop cap.size = during
    rw [RequestCapture.allRequests, h, RequestCapture.size, List.drop_left]
  · show (during.foldl RequestCapture.add cap).requests =
      cap.requests ++ ((during.foldl RequestCapture.add cap).allRequests).drop cap.size
    rw [RequestCapture.allRequests, h, RequestCapture.size, List.drop_left]

/-- C9: calling the session facade's `reset()` twice in succession yields
literally the same state as calling it once, and after a reset the capture
store is empty, the transport's response-id counter is back at 1 and every
entity-builder sequencer is back at its base. -/
theorem claim_c9_reset_idempotent (s : TestClientState) :
    TestClient.reset (TestClient.reset s) = TestClient.reset s ∧
    (TestClient.reset s).capture.requests = [] ∧
    (TestClient.reset s).session.message_id_counter = 1 ∧
    (TestClient.reset s).factories = FactoryState.base :=
  ⟨rfl, rfl, rfl, rfl⟩

/-- An identity the framework itself produces without a handle: the synthetic
bot user `User(id=123456, is_bot=True, first_name="TestBot")` built inside
`CallbackQueryFactory.create`. -/
def botIdentityNoHandle : User :=
  { id := 123456, is_bot := true, first_name := "TestBot",
    last_name := none, username := none, language_code := none, is_premium := false }

/-- C7 counterexample: for an identity without a handle, the derived private
conversation context does not share the identity's handle field — the code
synthesizes `test_user_<id>` instead of copying the absent handle, so the
claim's "handle fields match" fails at this concrete input. -/
theorem claim_c7_counterexample :
    ¬ ((ChatFactory.createPrivateFromUser botIdentityNoHandle).id = botIdentityNoHandle.id ∧
       (ChatFactory.createPrivateFromUser botIdentityNoHandle).first_name =
         some botIdentityNoHandle.first_name ∧
       (ChatFactory.createPrivateFromUser botIdentityNoHandle).last_name =
         botIdentityNoHandle.last_name ∧
       (ChatFactory.createPrivateFromUser botIdentityNoHandle).username =
         botIdentityNoHandle.username) := by
  intro h
  have hu := h.2.2.2
  simp [ChatFactory.createPrivateFromUser, ChatFactory.createPrivate, orNonEmpty,
    botIdentityNoHandle] at hu

/-- C7 amended: deriving a private conversation context from an identity `I`
always copies `I`'s numeric id, first name and last name; the handle is copied
whenever `I` carries a non-empty handle, and is otherwise synthesized as
`test_user_<id>`. -/
theorem claim_c7_private_context_derivation (u : User) :
    (ChatFactory.createPrivateFromUser u).id = u.id ∧
    (ChatFactory.createPrivateFromUser u).first_name = some u.first_name ∧
    (ChatFactory.createPrivateFromUser u).last_name = u.last_name ∧
    (∀ s : String, u.username = some s → s ≠ "" →
      (ChatFactory.createPrivateFromUser u).username = some s) ∧
    (u.username = none →
      (ChatFactory.createPrivateFromUser u).username =
        some ("test_user_" ++ toString u.id)) := by
  refine ⟨rfl, rfl, rfl, ?_, ?_⟩
  · intro s hs hne
    simp [ChatFactory.createPrivateFromUser, ChatFactory.createPrivate, orNonEmpty, hs, hne]
  · intro hnone
    simp [ChatFactory.createPrivateFromUser, ChatFactory.createPrivate, orNonEmpty, hnone]

/-- Witness for the amended C7 theorem at a concrete identity with a handle. -/
theorem claim_c7_private_context_derivation_witness :
    (ChatFactory.createPrivateFromUser
        ⟨42, false, "Alice", none, some "alice", some "en", false⟩).username =
      some "alice" :=
  (claim_c7_private_context_derivation
      ⟨42, false, "Alice", none, some "alice", some "en", false⟩).2.2.2.1
    "alice" rfl (by decide)

/-- C8: each of the four forward-variant message builders (by-user,
by-hidden-user, by-chat, by-channel) stamps the built message's forward-origin
metadata with the corresponding variant carrying its required fields (sender
identity, display name string, chat with optional signature, channel chat with
message id and optional signature), while building an ordinary message with
the given text and sender. -/
theorem claim_c8_forward_variant_builders (st : FactoryState) (text : String)
    (from_user forward_from : User) (sender_user_name : String)
    (sender_chat channel_chat : Chat) (channel_message_id : Int)
    (sig : Option String) (chat : Option Chat) (now : Int) :
    ((MessageFactory.createForwardedFromUser st text from_user forward_from
        chat now).1.forward_origin = some (MessageOrigin.user forward_from) ∧
      (MessageFactory.createForwardedFromUser st text from_user forward_from
        chat now).1.text = some text ∧
      (MessageFactory.createForwardedFromUser st text from_user forward_from
        chat now).1.from_user = some from_user) ∧
    ((MessageFactory.createForwardedFromHiddenUser st text from_user
        sender_user_name chat now).1.forward_origin =
        some (MessageOrigin.hiddenUser sender_user_name) ∧
      (MessageFactory.createForwardedFromHiddenUser st text from_user
        sender_user_name chat now).1.text = some text) ∧
    ((MessageFactory.createForwardedFromChat st text from_user sender_chat sig
        chat now).1.forward_origin = some (MessageOrigin.chat sender_chat sig) ∧
      (MessageFactory.createForwardedFromChat st text from_user sender_chat sig
        chat now).1.text = some text) ∧
    ((MessageFactory.createForwardedFromChannel st text from_user channel_chat
        channel_message_id sig chat now).1.forward_origin =
        some (MessageOrigin.channel channel_chat channel_message_id sig) ∧
      (MessageFactory.createForwardedFromChannel st text from_user channel_chat
        channel_message_id sig chat now).1.text = some text) := by
  refine ⟨⟨?_, ?_, ?_⟩, ⟨?_, ?_⟩, ⟨?_, ?_⟩, ⟨?_, ?_⟩⟩ <;>
    (simp only [MessageFactory.createForwardedFromUser,
      MessageFactory.createForwardedFromHiddenUser,
      MessageFactory.createForwardedFromChat,
      MessageFactory.createForwardedFromChannel,
      MessageFactory.create, withForwardOrigin_forward_origin,
      withForwardOrigin_text, withForwardOrigin_from_user]
     try rfl)

/-- Run one of the factories' auto-generated-id steps `n` times, collecting
the ids in order. -/
def genIds (next : FactoryState → Int × FactoryState) :
    Nat → FactoryState → List Int × FactoryState
  | 0, st => ([], st)
  | n + 1, st =>
    let p := next st
    let q := genIds next n p.2
    (p.1 :: q.1, q.2)

/-- The `n` consecutive integers starting at `base`. -/
def expectedIds (base : Int) : Nat → List Int
  | 0 => []
  | n + 1 => base :: expectedIds (base + 1) n

theorem expectedIds_eq_range (n : Nat) :
    ∀ base : Int, expectedIds base n = (List.range n).map (fun k : Nat => base + (k : Int)) := by
  induction n with
  | zero => intro base; rfl
  | succ k ih =>
    intro base
    rw [expectedIds, ih, List.range_succ_eq_map, List.map_cons, List.map_map]
    congr 1
    · norm_num
    · apply List.map_congr_left
      intro j _
      show base + 1 + (j : Int) = base + ((j + 1 : Nat) : Int)
      push_cast
      ring

theorem genIds_eq (next : FactoryState → Int × FactoryState)
    (get : FactoryState → Int)
    (h1 : ∀ st, (next st).1 = get st)
    (h2 : ∀ st, get (next st).2 = get st + 1) :
    ∀ (n : Nat) (st : FactoryState), (genIds next n st).1 = expectedIds (get st) n := by
  intro n
  induction n with
  | zero => intro st; rfl
  | succ k ih =>
    intro st
    show (next st).1 :: (genIds next k (next st).2).1 = expectedIds (get st) (k + 1)
    rw [h1, ih, h2, expectedIds]

/-- C6: for each of the four identifier sequencers (identity, message, action,
envelope), the `n` ids auto-generated after a `reset()` (without an
intervening reset) are `base, base+1, …, base+n-1` — strictly increasing by 1
from the sequencer's fixed base (identity base 100000, the others 1) — and the
first id generated after a further `reset()` equals the base again. -/
theorem claim_c6_sequencer_monotonicity (st st2 : FactoryState) (n : Nat) :
    ((genIds UserFactory.nextId n (UserFactory.resetCounter st)).1 =
        (List.range n).map (fun k : Nat => 100000 + (k : Int)) ∧
      (UserFactory.nextId (UserFactory.resetCounter st2)).1 = 100000) ∧
    ((genIds MessageFactory.nextId n (MessageFactory.resetCounter st)).1 =
        (List.range n).map (fun k : Nat => 1 + (k : Int)) ∧
      (MessageFactory.nextId (MessageFactory.resetCounter st2)).1 = 1) ∧
    ((genIds CallbackQueryFactory.nextId n (CallbackQueryFactory.resetCounter st)).1 =
        (List.range n).map (fun k : Nat => 1 + (k : Int)) ∧
      (CallbackQueryFactory.nextId (CallbackQueryFactory.resetCounter st2)).1 = 1) ∧
    ((genIds UpdateFactory.nextId n (UpdateFactory.resetCounter st)).1 =
        (List.range n).map (fun k : Nat => 1 + (k : Int)) ∧
      (UpdateFactory.nextId (UpdateFactory.resetCounter st2)).1 = 1) := by
  refine ⟨⟨?_, rfl⟩, ⟨?_, rfl⟩, ⟨?_, rfl⟩, ⟨?_, rfl⟩⟩
  · rw [genIds_eq UserFactory.nextId (fun s => s.user_id_counter)
      (fun _ => rfl) (fun _ => rfl) n, ← expectedIds_eq_range]
    rfl
  · rw [genIds_eq MessageFactory.nextId (fun s => s.message_id_counter)
      (fun _ => rfl) (fun _ => rfl) n, ← expectedIds_eq_range]
    rfl
  · rw [genIds_eq CallbackQueryFactory.nextId (fun s => s.callback_id_counter)
      (fun _ => rfl) (fun _ => rfl) n, ← expectedIds_eq_range]
    rfl
  · rw [genIds_eq UpdateFactory.nextId (fun s => s.update_id_counter)
      (fun _ => rfl) (fun _ => rfl) n, ← expectedIds_eq_range]
    rfl

theorem getByType_filterChat (c : RequestCapture) (ty : RequestType) (cid : Int) :
    filterByChat (c.getByType ty) (some cid) =
      c.requests.filter
        (fun r => decide (r.request_type = ty ∧ r.chat_id = some (PValue.int cid))) := by
  rw [filterByChat, RequestCapture.getByType, List.filter_filter]
  apply List.filter_congr
  intro r _
  rw [Bool.decide_and]
  exact Bool.and_comm _ _

theorem isEmpty_getLast? {α : Type} (l : List α) :
    (if l.isEmpty then none else l.getLast?) = l.getLast? := by
  cases l <;> simp

/-- C5: every capture-store query with an optional conversation filter
(`sent_messages`, `edited_messages`, `deleted_messages`, `dice_sends`,
`last_message`, `contains_text`) applies no filtering when no filter is
passed — the result ranges over all calls of the kind, in insertion order —
and with a conversation id `c` ranges over exactly the calls of that kind
whose submitted `chat_id` parameter equals `c`, in insertion order. -/
theorem claim_c5_conversation_filters (c : RequestCapture) (cid : Int) (t : String) :
    (c.getSentMessages none =
        c.requests.filter (fun r => decide (r.request_type = RequestType.sendMessage)) ∧
      c.getSentMessages (some cid) =
        c.requests.filter (fun r => decide (r.request_type = RequestType.sendMessage ∧
          r.chat_id = some (PValue.int cid)))) ∧
    (c.getEditedMessages none =
        c.requests.filter (fun r => decide (r.request_type = RequestType.editMessageText)) ∧
      c.getEditedMessages (some cid) =
        c.requests.filter (fun r => decide (r.request_type = RequestType.editMessageText ∧
          r.chat_id = some (PValue.int cid)))) ∧
    (c.getDeletedMessages none =
        c.requests.filter (fun r => decide (r.request_type = RequestType.deleteMessage)) ∧
      c.getDeletedMessages (some cid) =
        c.requests.filter (fun r => decide (r.request_type = RequestType.deleteMessage ∧
          r.chat_id = some (PValue.int cid)))) ∧
    (c.getDiceSends none =
        c.requests.filter (fun r => decide (r.request_type = RequestType.sendDice)) ∧
      c.getDiceSends (some cid) =
        c.requests.filter (fun r => decide (r.request_type = RequestType.sendDice ∧
          r.chat_id = some (PValue.int cid)))) ∧
    (c.getLastMessage none =
        (c.requests.filter
          (fun r => decide (r.request_type = RequestType.sendMessage))).getLast? ∧
      c.getLastMessage (some cid) =
        (c.requests.filter (fun r => decide (r.request_type = RequestType.sendMessage ∧
          r.chat_id = some (PValue.int cid)))).getLast?) ∧
    (c.hasMessageContaining t none = true ↔
        ∃ r ∈ c.requests, r.request_type = RequestType.sendMessage ∧
          textContains r.text t = true) ∧
    (c.hasMessageContaining t (some cid) = true ↔
        ∃ r ∈ c.requests, r.request_type = RequestType.sendMessage ∧
          r.chat_id = some (PValue.int cid) ∧ textContains r.text t = true) := by
  have hsent : c.getSentMessages (some cid) =
      c.requests.filter (fun r => decide (r.request_type = RequestType.sendMessage ∧
        r.chat_id = some (PValue.int cid))) :=
    getByType_filterChat c RequestType.sendMessage cid
  refine ⟨⟨rfl, hsent⟩,
    ⟨rfl, getByType_filterChat c RequestType.editMessageText cid⟩,
    ⟨rfl, getByType_filterChat c RequestType.deleteMessage cid⟩,
    ⟨rfl, getByType_filterChat c RequestType.sendDice cid⟩,
    ⟨?_, ?_⟩, ?_, ?_⟩
  · rw [RequestCapture.getLastMessage, isEmpty_getLast?]
    rfl
  · rw [RequestCapture.getLastMessage, isEmpty_getLast?, hsent]
  · rw [RequestCapture.hasMessageContaining]
    show (filterByChat (c.getByType RequestType.sendMessage) none).any _ = true ↔ _
    rw [filterByChat, RequestCapture.getByType, List.any_eq_true]
    constructor
    · rintro ⟨r, hr, hp⟩
      rw [List.mem_filter] at hr
      exact ⟨r, hr.1, of_decide_eq_true hr.2, hp⟩
    · rintro ⟨r, hr, hty, hp⟩
      exact ⟨r, List.mem_filter.mpr ⟨hr, decide_eq_true hty⟩, hp⟩
  · rw [RequestCapture.hasMessageContaining, RequestCapture.getSentMessages,
      getByType_filterChat, List.any_eq_true]
    constructor
    · rintro ⟨r, hr, hp⟩
      rw [List.mem_filter] at hr
      have h2 := of_decide_eq_true hr.2
      exact ⟨r, hr.1, h2.1, h2.2, hp⟩
    · rintro ⟨r, hr, hty, hchat, hp⟩
      exact ⟨r, List.mem_filter.mpr ⟨hr, decide_eq_true ⟨hty, hchat⟩⟩, hp⟩

theorem randint_bounds (lo hi : Int) (r : Nat) (h : lo ≤ hi) :
    lo ≤ randint lo hi r ∧ randint lo hi r ≤ hi := by
  rw [randint]
  have hpos : (0 : Int) < hi - lo + 1 := by omega
  have h1 : 0 ≤ (r : Int) % (hi - lo + 1) := Int.emod_nonneg _ (by omega)
  have h2 : (r : Int) % (hi - lo + 1) < hi - lo + 1 := Int.emod_lt_of_pos _ hpos
  omega

/-- C2: dice-message construction errors exactly when an explicit value is
supplied that lies outside the emoji-keyed range — 1..6 for bowling, darts and
the standard die, 1..5 for basketball and football, 1..64 for slot — and when
no value is supplied construction never errors and the generated value lies
inside that same range. -/
theorem claim_c2_dice_value_validation (emoji : String) (lo hi : Int)
    (h : ((emoji = "🎳" ∨ emoji = "🎯" ∨ emoji = "🎲") ∧ lo = 1 ∧ hi = 6) ∨
         ((emoji = "🏀" ∨ emoji = "⚽") ∧ lo = 1 ∧ hi = 5) ∨
         (emoji = "🎰" ∧ lo = 1 ∧ hi = 64)) :
    ∀ (st : FactoryState) (fu : User) (chat : Option Chat) (mid : Option Int)
      (date : Option Int) (v : Int) (r : Nat) (now : Int),
      (isErr (MessageFactory.createDice st fu (some v) emoji chat mid date r now).1 = true ↔
        ¬ (lo ≤ v ∧ v ≤ hi)) ∧
      isErr (MessageFactory.createDice st fu none emoji chat mid date r now).1 = false ∧
      (∀ m, (MessageFactory.createDice st fu none emoji chat mid date r now).1 =
          Except.ok m →
        ∃ d0, m.dice = some d0 ∧ lo ≤ d0.value ∧ d0.value ≤ hi) := by
  obtain ⟨hrange, hle⟩ : MessageFactory.getDiceValueRange emoji = (lo, hi) ∧ lo ≤ hi := by
    rcases h with ⟨he, hlo, hhi⟩ | ⟨he, hlo, hhi⟩ | ⟨he, hlo, hhi⟩
    · subst hlo; subst hhi
      rcases he with he | he | he <;> subst he <;> exact ⟨by decide, by decide⟩
    · subst hlo; subst hhi
      rcases he with he | he <;> subst he <;> exact ⟨by decide, by decide⟩
    · subst hlo; subst hhi; subst he; exact ⟨by decide, by decide⟩
  intro st fu chat mid date v r now
  have hval : MessageFactory.validateDiceValue v emoji =
      if lo ≤ v ∧ v ≤ hi then Except.ok ()
      else Except.error "Dice value is out of range for emoji." := by
    rw [MessageFactory.validateDiceValue, hrange]
  refine ⟨?_, ?_, ?_⟩
  · by_cases hc : lo ≤ v ∧ v ≤ hi
    · simp [MessageFactory.createDice, hval, hc, isErr]
    · simp [MessageFactory.createDice, hval, hc, isErr]
  · simp [MessageFactory.createDice, isErr]
  · intro m hm
    simp only [MessageFactory.createDice, Except.ok.injEq] at hm
    refine ⟨⟨emoji, MessageFactory.getRandomDiceValue emoji r⟩, ?_, ?_, ?_⟩
    · rw [← hm]; rfl
    · have := randint_bounds lo hi r hle
      rw [MessageFactory.getRandomDiceValue, hrange]
      exact this.1
    · have := randint_bounds lo hi r hle
      rw [MessageFactory.getRandomDiceValue, hrange]
      exact this.2

/-- A sample test identity used by the witness theorems. -/
def sampleUser : User :=
  ⟨500, false, "Test", some "User", some "test_user_500", some "en", false⟩

/-- Witness for C2: an explicit slot value of 65 is rejected. -/
theorem claim_c2_dice_value_validation_witness :
    isErr (MessageFactory.createDice FactoryState.base sampleUser (some 65) "🎰"
      none none none 0 0).1 = true :=
  ((claim_c2_dice_value_validation "🎰" 1 64 (Or.inr (Or.inr ⟨rfl, rfl, rfl⟩))
      FactoryState.base sampleUser none none none 65 0 0).1).mpr (by omega)

/-- C4: an outbound call whose method name is not one of the closed call-kind
enum values never fails: it is classified `other`, recorded in the capture
store with its submitted parameters, and answered with boolean success
(`True`), leaving the session state untouched. -/
theorem claim_c4_unknown_method_never_fails (bu : User) (name : String)
    (params : Params) (st : MockSessionState) (cap : RequestCapture)
    (r : Nat) (now : Int) (h : name ∉ enumMethodNames) :
    MockSession.makeRequest bu name params st cap r now =
      (MockResponse.bool true, st,
       cap.add ⟨RequestType.other, params, now, MockResponse.bool true⟩) := by
  have hne : ∀ s, s ∈ enumMethodNames → ¬ name = s := by
    intro s hs heq
    exact h (heq ▸ hs)
  have h1 : ¬ name = "getMe" := hne _ (by decide)
  have h2 : ¬ (name = "sendMessage" ∨ name = "editMessageText") := by
    rintro (he | he)
    · exact hne _ (by decide) he
    · exact hne _ (by decide) he
  have h3 : ¬ name = "deleteMessage" := hne _ (by decide)
  have h4 : ¬ name = "answerCallbackQuery" := hne _ (by decide)
  have h5 : ¬ name = "sendDice" := hne _ (by decide)
  have h6 : ¬ name = "sendPhoto" := hne _ (by decide)
  have h7 : ¬ name = "getChatMember" := hne _ (by decide)
  have h8 : ¬ name = "getChat" := hne _ (by decide)
  have hresp : MockSession.generateResponse bu name params st r now =
      (MockResponse.bool true, st) := by
    rw [MockSession.generateResponse, if_neg h1, if_neg h2, if_neg h3, if_neg h4,
      if_neg h5, if_neg h6, if_neg h7, if_neg h8]
  have hclass : methodToRequestType name = RequestType.other := by
    rw [methodToRequestType]
    have hfind : requestTypeAssoc.find? (fun p => p.1 = name) = none := by
      rw [List.find?_eq_none]
      intro p hp
      simp only [decide_eq_true_eq]
      intro he
      exact hne p.1 (List.mem_map_of_mem Prod.fst hp) he.symm
    rw [hfind]
  simp [MockSession.makeRequest, hresp, hclass]

/-- Witness for C4 at a concrete unrecognized method name. -/
theorem claim_c4_unknown_method_never_fails_witness :
    MockSession.makeRequest sampleUser "unknownTestMethod" [("chat_id", PValue.int 7)]
      MockSessionState.fresh ⟨[]⟩ 0 0 =
      (MockResponse.bool true, MockSessionState.fresh,
       ⟨[⟨RequestType.other, [("chat_id", PValue.int 7)], 0, MockResponse.bool true⟩]⟩) := by
  rw [claim_c4_unknown_method_never_fails sampleUser "unknownTestMethod"
    [("chat_id", PValue.int 7)] MockSessionState.fresh ⟨[]⟩ 0 0 (by decide)]
  rfl

/-- The dice-roll response message `_generate_response` synthesizes for a
`sendDice` interception: fresh response id `mid`, submitted conversation id,
the synthetic bot as sender and a dice payload with value `v`. -/
def diceResponseMsg (bu : User) (params : Params) (now mid v : Int) : Message :=
  Message.mk mid now ⟨params.getInt "chat_id" 0, "private", none, none, none, none⟩
    (some bu) none none none none (some ⟨params.getStr "emoji" "🎲", v⟩) none none none

theorem makeRequest_proj (bu : User) (name : String) (params : Params)
    (st : MockSessionState) (cap : RequestCapture) (r : Nat) (now : Int) :
    (MockSession.makeRequest bu name params st cap r now).2.1 =
      (MockSession.generateResponse bu name params st r now).2 ∧
    (MockSession.makeRequest bu name params st cap r now).2.2 =
      cap.add ⟨methodToRequestType name, params, now,
        (MockSession.generateResponse bu name params st r now).1⟩ :=
  ⟨rfl, rfl⟩

theorem makeRequest_sendDice_cons (bu : User) (params : Params) (now : Int)
    (st : MockSessionState) (cap : RequestCapture) (r : Nat) (v : Int)
    (vt : List Int) (hq : st.next_dice_values = v :: vt) :
    MockSession.makeRequest bu "sendDice" params st cap r now =
      (MockResponse.message (diceResponseMsg bu params now st.message_id_counter v),
       ⟨st.message_id_counter + 1, vt⟩,
       cap.add ⟨RequestType.sendDice, params, now,
         MockResponse.message (diceResponseMsg bu params now st.message_id_counter v)⟩) := by
  have hclass : methodToRequestType "sendDice" = RequestType.sendDice := by decide
  simp [MockSession.makeRequest, MockSession.generateResponse,
    MockSession.getNextMessageId, MockSession.getNextDiceValue, hq, hclass,
    diceResponseMsg]

theorem makeRequest_sendDice_nil (bu : User) (params : Params) (now : Int)
    (st : MockSessionState) (cap : RequestCapture) (r : Nat)
    (hq : st.next_dice_values = []) :
    ∃ v : Int,
      MockSession.makeRequest bu "sendDice" params st cap r now =
        (MockResponse.message (diceResponseMsg bu params now st.message_id_counter v),
         ⟨st.message_id_counter + 1, []⟩,
         cap.add ⟨RequestType.sendDice, params, now,
           MockResponse.message (diceResponseMsg bu params now st.message_id_counter v)⟩) ∧
      (defaultDiceRange (params.getStr "emoji" "🎲")).1 ≤ v ∧
      v ≤ (defaultDiceRange (params.getStr "emoji" "🎲")).2 := by
  have hclass : methodToRequestType "sendDice" = RequestType.sendDice := by decide
  by_cases h1 : params.getStr "emoji" "🎲" = "🏀" ∨ params.getStr "emoji" "🎲" = "⚽"
  · refine ⟨randint 1 5 r, ?_, ?_, ?_⟩
    · simp [MockSession.makeRequest, MockSession.generateResponse,
        MockSession.getNextMessageId, MockSession.getNextDiceValue, hq, hclass,
        diceResponseMsg, h1]
    · rw [defaultDiceRange, if_pos h1]
      exact (randint_bounds 1 5 r (by omega)).1
    · rw [defaultDiceRange, if_pos h1]
      exact (randint_bounds 1 5 r (by omega)).2
  · by_cases h2 : params.getStr "emoji" "🎲" = "🎰"
    · refine ⟨randint 1 64 r, ?_, ?_, ?_⟩
      · simp [MockSession.makeRequest, MockSession.generateResponse,
          MockSession.getNextMessageId, MockSession.getNextDiceValue, hq, hclass,
          diceResponseMsg, h1, h2]
      · rw [defaultDiceRange, if_neg h1, if_pos h2]
        exact (randint_bounds 1 64 r (by omega)).1
      · rw [defaultDiceRange, if_neg h1, if_pos h2]
        exact (randint_bounds 1 64 r (by omega)).2
    · refine ⟨randint 1 6 r, ?_, ?_, ?_⟩
      · simp [MockSession.makeRequest, MockSession.generateResponse,
          MockSession.getNextMessageId, MockSession.getNextDiceValue, hq, hclass,
          diceResponseMsg, h1, h2]
      · rw [defaultDiceRange, if_neg h1, if_neg h2]
        exact (randint_bounds 1 6 r (by omega)).1
      · rw [defaultDiceRange, if_neg h1, if_neg h2]
        exact (randint_bounds 1 6 r (by omega)).2

theorem runDiceSends_cons (bu : User) (params : Params) (now : Int) (r : Nat)
    (rs : List Nat) (st : MockSessionState) (cap : RequestCapture) :
    runDiceSends bu params now (r :: rs) (st, cap) =
      runDiceSends bu params now rs
        ((MockSession.makeRequest bu "sendDice" params st cap r now).2.1,
         (MockSession.makeRequest bu "sendDice" params st cap r now).2.2) :=
  rfl

theorem runDiceSends_split (bu : User) (params : Params) (now : Int) :
    ∀ (rs : List Nat) (st : MockSessionState) (cap : RequestCapture),
      (runDiceSends bu params now rs (st, cap)).1 =
        (runDiceSends bu params now rs (st, ⟨[]⟩)).1 ∧
      (runDiceSends bu params now rs (st, cap)).2.requests =
        cap.requests ++ (runDiceSends bu params now rs (st, ⟨[]⟩)).2.requests := by
  intro rs
  induction rs with
  | nil =>
    intro st cap
    exact ⟨rfl, by simp [runDiceSends]⟩
  | cons r rt ih =>
    intro st cap
    rw [runDiceSends_cons, runDiceSends_cons,
      (makeRequest_proj bu "sendDice" params st cap r now).1,
      (makeRequest_proj bu "sendDice" params st cap r now).2,
      (makeRequest_proj bu "sendDice" params st ⟨[]⟩ r now).1,
      (makeRequest_proj bu "sendDice" params st ⟨[]⟩ r now).2]
    constructor
    · rw [(ih _ _).1,
        (ih (MockSession.generateResponse bu "sendDice" params st r now).2
          (RequestCapture.add ⟨[]⟩ ⟨methodToRequestType "sendDice", params, now,
            (MockSession.generateResponse bu "sendDice" params st r now).1⟩)).1]
    · rw [(ih _ _).2,
        (ih (MockSession.generateResponse bu "sendDice" params st r now).2
          (RequestCapture.add ⟨[]⟩ ⟨methodToRequestType "sendDice", params, now,
            (MockSession.generateResponse bu "sendDice" params st r now).1⟩)).2]
      simp [RequestCapture.add]

theorem runDiceSends_consume (bu : User) (params : Params) (now : Int) :
    ∀ (vs : List Int) (rs : List Nat) (st : MockSessionState) (rest : List Int),
      rs.length = vs.length → st.next_dice_values = vs ++ rest →
      (runDiceSends bu params now rs (st, ⟨[]⟩)).1.next_dice_values = rest ∧
      (runDiceSends bu params now rs (st, ⟨[]⟩)).1.message_id_counter =
        st.message_id_counter + vs.length ∧
      ((runDiceSends bu params now rs (st, ⟨[]⟩)).2.requests).length = vs.length ∧
      ((runDiceSends bu params now rs (st, ⟨[]⟩)).2.requests).filterMap
        CapturedRequest.diceValue = vs := by
  intro vs
  induction vs with
  | nil =>
    intro rs st rest hlen hq
    cases rs with
    | nil =>
      refine ⟨?_, by simp [runDiceSends], by simp [runDiceSends], by simp [runDiceSends]⟩
      show st.next_dice_values = rest
      simpa using hq
    | cons a b => simp at hlen
  | cons v vt ih =>
    intro rs st rest hlen hq
    cases rs with
    | nil => simp at hlen
    | cons r rt =>
      have hlen2 : rt.length = vt.length := by simpa using hlen
      rw [runDiceSends_cons,
        makeRequest_sendDice_cons bu params now st ⟨[]⟩ r v (vt ++ rest) hq]
      have ihr := ih rt ⟨st.message_id_counter + 1, vt ++ rest⟩ rest hlen2 rfl
      have hsp := runDiceSends_split bu params now rt
        ⟨st.message_id_counter + 1, vt ++ rest⟩
        (RequestCapture.add ⟨[]⟩ ⟨RequestType.sendDice, params, now,
          MockResponse.message (diceResponseMsg bu params now st.message_id_counter v)⟩)
      refine ⟨?_, ?_, ?_, ?_⟩
      · rw [hsp.1]
        exact ihr.1
      · rw [hsp.1, ihr.2.1]
        simp
        omega
      · rw [hsp.2, List.length_append, ihr.2.2.1]
        simp [RequestCapture.add]
        omega
      · rw [hsp.2, List.filterMap_append, ihr.2.2.2]
        simp [RequestCapture.add, CapturedRequest.diceValue, diceResponseMsg, Message.dice]

theorem enqueueAll_spec : ∀ (vs : List Int) (st : MockSessionState),
    (MockSession.enqueueAll st vs).next_dice_values = st.next_dice_values ++ vs ∧
    (MockSession.enqueueAll st vs).message_id_counter = st.message_id_counter := by
  intro vs
  induction vs with
  | nil => intro st; simp [MockSession.enqueueAll]
  | cons v vt ih =>
    intro st
    have h := ih { st with next_dice_values := st.next_dice_values ++ [v] }
    refine ⟨?_, ?_⟩
    · show (MockSession.enqueueAll (MockSession.setNextDiceValue st v) vt).next_dice_values = _
      rw [MockSession.setNextDiceValue, h.1]
      simp
    · show (MockSession.enqueueAll (MockSession.setNextDiceValue st v) vt).message_id_counter = _
      rw [MockSession.setNextDiceValue, h.2]

/-- C3: enqueueing dice values `vs` through `set_next_dice_value` and then
triggering `vs.length` send-dice interceptions consumes the queued values
oldest-first, exactly once each, as the dice values of the synthesized
responses (the newly captured calls carry exactly `vs`, in order); the queue
is then empty, and a further send-dice synthesizes a value inside the emoji's
default range while consuming nothing (the queue stays empty). -/
theorem claim_c3_dice_fifo (bu : User) (params : Params) (now : Int)
    (vs : List Int) (rs : List Nat) (st stq : MockSessionState)
    (cap : RequestCapture) (out : MockSessionState × RequestCapture)
    (hlen : rs.length = vs.length) (hq : st.next_dice_values = [])
    (hstq : stq = MockSession.enqueueAll st vs)
    (hout : out = runDiceSends bu params now rs (stq, cap)) :
    stq.next_dice_values = vs ∧
    (out.2.requests.drop cap.requests.length).filterMap CapturedRequest.diceValue = vs ∧
    out.1.next_dice_values = [] ∧
    (∀ r2 : Nat, ∃ v : Int,
      (MockSession.makeRequest bu "sendDice" params out.1 out.2 r2 now).1 =
        MockResponse.message (diceResponseMsg bu params now out.1.message_id_counter v) ∧
      (defaultDiceRange (params.getStr "emoji" "🎲")).1 ≤ v ∧
      v ≤ (defaultDiceRange (params.getStr "emoji" "🎲")).2 ∧
      (MockSession.makeRequest bu "sendDice" params out.1 out.2 r2 now).2.1.next_dice_values
        = []) := by
  have hqueue : stq.next_dice_values = vs := by
    rw [hstq, (enqueueAll_spec vs st).1, hq]
    simp
  subst hout
  have hsp := runDiceSends_split bu params now rs stq cap
  have hcons := runDiceSends_consume bu params now vs rs stq [] hlen
    (by rw [hqueue, List.append_nil])
  have hvals : ((runDiceSends bu params now rs (stq, cap)).2.requests.drop
      cap.requests.length).filterMap CapturedRequest.diceValue = vs := by
    rw [hsp.2, List.drop_left]
    exact hcons.2.2.2
  have hempty : (runDiceSends bu params now rs (stq, cap)).1.next_dice_values = [] := by
    rw [hsp.1]
    exact hcons.1
  refine ⟨hqueue, hvals, hempty, ?_⟩
  intro r2
  obtain ⟨v, heq, hlo, hhi⟩ := makeRequest_sendDice_nil bu params now
    (runDiceSends bu params now rs (stq, cap)).1
    (runDiceSends bu params now rs (stq, cap)).2 r2 hempty
  refine ⟨v, ?_, hlo, hhi, ?_⟩
  · rw [heq]
  · rw [heq]

/-- Witness for C3: enqueueing `[3, 5, 2]` and triggering three dice sends
captures dice values `[3, 5, 2]`, in order. -/
theorem claim_c3_dice_fifo_witness :
    ((runDiceSends sampleUser [("chat_id", PValue.int 1)] 0 [0, 0, 0]
        (MockSession.enqueueAll MockSessionState.fresh [3, 5, 2],
         ⟨[]⟩)).2.requests.drop 0).filterMap CapturedRequest.diceValue = [3, 5, 2] :=
  (claim_c3_dice_fifo sampleUser [("chat_id", PValue.int 1)] 0 [3, 5, 2] [0, 0, 0]
    MockSessionState.fresh (MockSession.enqueueAll MockSessionState.fresh [3, 5, 2])
    ⟨[]⟩
    (runDiceSends sampleUser [("chat_id", PValue.int 1)] 0 [0, 0, 0]
      (MockSession.enqueueAll MockSessionState.fresh [3, 5, 2], ⟨[]⟩))
    rfl rfl rfl rfl).2.1

/-- C10: the session facade's `reset()` leaves the transport's pre-set
dice-value FIFO unchanged — values enqueued before the reset are still queued
afterwards, and send-dice interceptions performed after the reset consume
them oldest-first, exactly once each, leaving the queue empty. -/
theorem claim_c10_reset_preserves_dice_queue (s : TestClientState)
    (vs : List Int) (rs : List Nat) (bu : User) (params : Params) (now : Int)
    (cap : RequestCapture) (out : MockSessionState × RequestCapture)
    (hlen : rs.length = vs.length) (hq : s.session.next_dice_values = vs)
    (hout : out = runDiceSends bu params now rs ((TestClient.reset s).session, cap)) :
    (TestClient.reset s).session.next_dice_values = vs ∧
    (out.2.requests.drop cap.requests.length).filterMap CapturedRequest.diceValue = vs ∧
    out.1.next_dice_values = [] := by
  have hpres : (TestClient.reset s).session.next_dice_values = vs := hq
  subst hout
  have hsp := runDiceSends_split bu params now rs (TestClient.reset s).session cap
  have hcons := runDiceSends_consume bu params now vs rs (TestClient.reset s).session []
    hlen (by rw [hpres, List.append_nil])
  refine ⟨hpres, ?_, ?_⟩
  · rw [hsp.2, List.drop_left]
    exact hcons.2.2.2
  · rw [hsp.1]
    exact hcons.1

/-- A sample facade state with two queued dice values, for the C10 witness. -/
def sampleClientState : TestClientState :=
  { capture := ⟨[]⟩,
    session := { message_id_counter := 9, next_dice_values := [4, 2] },
    factories := FactoryState.base }

/-- Witness for C10: values `[4, 2]` queued before `reset()` survive it and
are consumed in order by two post-reset dice sends. -/
theorem claim_c10_reset_preserves_dice_queue_witness :
    (TestClient.reset sampleClientState).session.next_dice_values = [4, 2] ∧
    ((runDiceSends sampleUser [] 0 [0, 0]
        ((TestClient.reset sampleClientState).session,
         ⟨[]⟩)).2.requests.drop 0).filterMap CapturedRequest.diceValue = [4, 2] :=
  let h := claim_c10_reset_preserves_dice_queue sampleClientState [4, 2] [0, 0]
    sampleUser [] 0 ⟨[]⟩
    (runDiceSends sampleUser [] 0 [0, 0]
      ((TestClient.reset sampleClientState).session, ⟨[]⟩))
    rfl rfl rfl
  ⟨h.1, h.2.1⟩

end ATF
